import Mathlib

/-!
Verification of the clinical-notes tools of `src/m4/core/tools/notes.py`
(`SearchNotesTool`, `GetNoteTool`, `ListPatientNotesTool`) and of the
capability gate each of them carries (`is_compatible`).

Modelling conventions:
* Python strings are `List Char`; `lit s` injects a Lean string literal.
* The SQL backend (`m4.core.backends`, not part of the repository snapshot)
  is an oracle `List Char → BackendResponse` mapping each queried table to
  the outcome of `backend.execute_query(sql, dataset)` for the query the
  tool builds for that table: `QueryResult.ok` carries the result object's
  `success` flag and `data` payload, `exn` models a raised exception whose
  `str()` is the carried message.  Within one call the generated SQL is a
  function of the table name alone, so indexing the oracle by table is
  faithful.
* The snippet CASE expression that `SearchNotesTool.invoke` embeds in its
  SQL (POSITION / SUBSTRING / GREATEST / LEFT / LOWER) is translated with
  standard SQL semantics: POSITION is the 1-based offset of the first
  occurrence (0 when absent), SUBSTRING(s, start, len) with start ≥ 1 takes
  `len` characters from `start`, clamped at the end of `s`.
* Each `invoke` returns the formatted output together with the list of
  tables actually queried, so that "touches no table" is expressible.
-/

namespace M4Notes

/-- String literal as a character list. -/
def lit (s : String) : List Char := s.data

/-- Python `str.lower()` / SQL `LOWER`, character-wise. -/
def lowerChars (s : List Char) : List Char := s.map Char.toLower

/-- Python `str.upper()`, character-wise (used for the `**TABLE:**` labels). -/
def upperChars (s : List Char) : List Char := s.map Char.toUpper

/-- `needle` occurs at the start of `hay`. -/
def startsWith : List Char → List Char → Bool
  | _, [] => true
  | [], _ :: _ => false
  | a :: hay, b :: needle => a == b && startsWith hay needle

/-- Python substring membership `needle in hay`. -/
def pyIn (needle : List Char) : List Char → Bool
  | [] => startsWith [] needle
  | c :: hay => startsWith (c :: hay) needle || pyIn needle hay

/-- Helper for SQL POSITION: 1-based position of the first occurrence of
`needle` in the remaining haystack, `k` being the position of its head in
the full haystack; 0 when there is no occurrence. -/
def sqlPositionAux (needle : List Char) : List Char → Nat → Nat
  | [], k => if startsWith [] needle then k else 0
  | c :: hay, k =>
    if startsWith (c :: hay) needle then k else sqlPositionAux needle hay (k + 1)

/-- SQL `POSITION(needle IN hay)`: 1-based first occurrence, 0 if absent. -/
def sqlPosition (needle hay : List Char) : Nat := sqlPositionAux needle hay 1

/-- SQL `SUBSTRING(s, start, len)` for a 1-based `start ≥ 1` (the generated
query wraps the start in `GREATEST(1, …)`, so no other start reaches it). -/
def sqlSubstring (s : List Char) (start : Int) (len : Nat) : List Char :=
  (s.drop (start.toNat - 1)).take len

/-- SQL `LEFT(s, n)`. -/
def sqlLeft (s : List Char) (n : Nat) : List Char := s.take n

/-- The snippet CASE expression of the search SQL
(`notes.py` lines 101-109): if the lowered search term occurs in the lowered
text, take `snippet_length` characters starting at
`GREATEST(1, position - snippet_length // 2)`; otherwise the first
`snippet_length` characters.  `snippet_length // 2` is Python floor division,
performed before the value is embedded in the SQL text. -/
def snippetOf (searchTerm text : List Char) (snippetLength : Nat) : List Char :=
  let pos : Nat := sqlPosition (lowerChars searchTerm) (lowerChars text)
  if 0 < pos then
    sqlSubstring text (max 1 ((pos : Int) - (snippetLength / 2 : Nat))) snippetLength
  else
    sqlLeft text snippetLength

/-- Python `s.replace("'", "''")` used on the query / note id before it is
embedded in SQL (`notes.py` lines 92 and 182). -/
def escapeQuotes : List Char → List Char
  | [] => []
  | c :: s => if c == '\'' then '\'' :: '\'' :: escapeQuotes s else c :: escapeQuotes s

/-- Python `str(n)` for the naturals interpolated into messages. -/
def natChars (n : Nat) : List Char := (toString n).data

/-- Python `str(n)` for the integers interpolated into messages. -/
def intChars (n : Int) : List Char := (toString n).data

/-! ### Data model: datasets, modalities and the capability gate -/

/-- Modelled from the spec: a modality is a named capability tag
(`m4.core.datasets.Modality` is not in the repository snapshot); the spec
names "notes" and "tabular" as examples, so tags are plain strings. -/
abbrev Modality : Type := List Char

/-- Modelled from the spec: a dataset descriptor has a `name` and a set of
`modalities` (`m4.core.datasets.DatasetDefinition` is not in the repository
snapshot; its two fields used by `is_compatible` are the spec's §3 fields). -/
structure DatasetDefinition where
  name : List Char
  modalities : List Modality

/-- The class attributes of a notes tool that `is_compatible` reads:
`required_modalities` and the optional `supported_datasets` allow-list. -/
structure ToolCaps where
  required_modalities : List Modality
  supported_datasets : Option (List (List Char))

/-- Python truthiness of `self.supported_datasets`: `None` and the empty
frozenset are falsy. -/
def truthyOpt (o : Option (List (List Char))) : Bool :=
  match o with
  | none => false
  | some l => !l.isEmpty

/-- `frozenset.issubset`. -/
def isSubsetOf (a b : List Modality) : Bool := a.all (fun m => decide (m ∈ b))

/-- `is_compatible` as written identically in all three tool classes
(`notes.py` lines 149-155, 217-223, 309-315): reject when the allow-list is
truthy and the dataset name is not in it, reject when the required
modalities are not a subset of the dataset's, else accept. -/
def is_compatible (tool : ToolCaps) (dataset : DatasetDefinition) : Bool :=
  if truthyOpt tool.supported_datasets
      && !(decide (dataset.name ∈ tool.supported_datasets.getD [])) then
    false
  else if !isSubsetOf tool.required_modalities dataset.modalities then
    false
  else
    true

/-- `SearchNotesTool`: `required_modalities = {NOTES}`, `supported_datasets = None`. -/
def searchNotesTool : ToolCaps := ⟨[lit "notes"], none⟩

/-- `GetNoteTool`: `required_modalities = {NOTES}`, `supported_datasets = None`. -/
def getNoteTool : ToolCaps := ⟨[lit "notes"], none⟩

/-- `ListPatientNotesTool`: `required_modalities = {NOTES}`, `supported_datasets = None`. -/
def listPatientNotesTool : ToolCaps := ⟨[lit "notes"], none⟩

/-! ### The backend oracle -/

/-- The `QueryResult` the backend returns from `execute_query`. -/
structure QueryResult where
  success : Bool
  data : List Char
deriving DecidableEq

/-- Outcome of one `backend.execute_query` call: a returned result object,
or a raised exception rendered by `str(e)`. -/
inductive BackendResponse where
  | ok (r : QueryResult)
  | exn (msg : List Char)
deriving DecidableEq

/-- A backend oracle: the response for each queried table. -/
def Backend : Type := List Char → BackendResponse

/-! ### Table resolution -/

/-- `_get_tables_for_type`, written identically in `SearchNotesTool`
(lines 138-147) and `ListPatientNotesTool` (lines 298-307): lowercase the
selector, then map the three valid selectors to their table lists and
everything else to the empty list. -/
def getTablesForType (note_type : List Char) : List (List Char) :=
  let note_type := lowerChars note_type
  if note_type = lit "discharge" then [lit "discharge"]
  else if note_type = lit "radiology" then [lit "radiology"]
  else if note_type = lit "all" then [lit "discharge", lit "radiology"]
  else []

/-! ### SearchNotesTool.invoke -/

/-- A per-table result block `"\n**{table.upper()}:**\n{result.data}"`
appended by `SearchNotesTool.invoke` (line 119). -/
def searchEntry (table data : List Char) : List Char :=
  lit "\n**" ++ (upperChars table ++ (lit ":**\n" ++ data))

/-- The inline error annotation `"\n**{table.upper()}:** Error - {e}"`
appended when a table's query raises (lines 121 and 281). -/
def tableErrorEntry (table msg : List Char) : List Char :=
  lit "\n**" ++ (upperChars table ++ (lit ":** Error - " ++ msg))

/-- The `for table in tables_to_search` loop of `SearchNotesTool.invoke`
(lines 94-121): keep a result block when the query returned
`success` with truthy (non-empty) `data`, keep an error annotation when it
raised, and otherwise contribute nothing. -/
def searchResults (backend : Backend) : List (List Char) → List (List Char)
  | [] => []
  | table :: rest =>
    match backend table with
    | .ok r =>
      if r.success && !r.data.isEmpty then
        searchEntry table r.data :: searchResults backend rest
      else
        searchResults backend rest
    | .exn e => tableErrorEntry table e :: searchResults backend rest

/-- The invalid-selector message of lines 87-88 and 256-257 (identical text
in both tools). -/
def invalidNoteTypeMsg (backend_info note_type : List Char) : List Char :=
  backend_info ++ (lit "\n**Error:** Invalid note_type '" ++ (note_type ++
    lit "'. Use 'discharge', 'radiology', or 'all'."))

/-- The no-matches message of lines 124-127. -/
def noMatchesMsg (backend_info query : List Char) (tables : List (List Char)) : List Char :=
  backend_info ++ (lit "\n**No matches found** for '" ++ (query ++ (lit "' in " ++
    (List.intercalate (lit ", ") tables ++ lit "."))))

/-- The aggregated search output of lines 129-134. -/
def searchOutput (backend_info query : List Char) (snippet_length : Nat)
    (results : List (List Char)) : List Char :=
  backend_info ++ (lit "\n**Search:** '" ++ (query ++
    (lit "' (showing snippets of ~" ++ (natChars snippet_length ++ (lit " chars)\n" ++
    (results.flatten ++
    lit "\n\n**Tip:** Use `get_note(note_id)` to retrieve full text of a specific note."))))))

/-- `SearchNotesTool.invoke` (lines 75-136).  Returns the formatted output
together with the tables queried (empty exactly when no SQL was issued).
`limit` and `snippet_length` reach the backend only through the generated
SQL, which the oracle already accounts for; `snippet_length` also appears in
the output header. -/
def searchNotesInvoke (backend : Backend) (backend_info query note_type : List Char)
    (snippet_length : Nat) : List Char × List (List Char) :=
  let tables_to_search := getTablesForType note_type
  if tables_to_search.isEmpty then
    (invalidNoteTypeMsg backend_info note_type, [])
  else
    let results := searchResults backend tables_to_search
    if results.isEmpty then
      (noMatchesMsg backend_info query tables_to_search, tables_to_search)
    else
      (searchOutput backend_info query snippet_length results, tables_to_search)

/-! ### GetNoteTool.invoke -/

/-- Python truthiness of `params.max_length` (`int | None`): `None` and `0`
are falsy, every other integer is truthy. -/
def truthyInt (o : Option Int) : Bool :=
  match o with
  | none => false
  | some m => m != 0

/-- Python `s[:m]`: for `m ≥ 0` the first `m` characters, for `m < 0` all
but the last `-m` characters (clamped at the empty string). -/
def pySliceTo (s : List Char) (m : Int) : List Char :=
  if 0 ≤ m then s.take m.toNat else s.take ((s.length : Int) + m).toNat

/-- The found-note branch of `GetNoteTool.invoke` (lines 200-207): when
`max_length` is truthy and `len(result.data)` exceeds it, return the
truncated payload with the truncation framing, else the full payload. -/
def getNoteFound (backend_info data : List Char) (max_length : Option Int) : List Char :=
  if truthyInt max_length && decide ((data.length : Int) > max_length.getD 0) then
    backend_info ++ (lit "\n**Note (truncated to " ++ (intChars (max_length.getD 0) ++
      (lit " chars):**\n" ++ (pySliceTo data (max_length.getD 0) ++ lit "\n\n[...truncated...]"))))
  else
    backend_info ++ (lit "\n" ++ data)

/-- The not-found message of lines 211-215 (its three f-string fragments are
one string once Python joins the adjacent literals). -/
def noteNotFoundMsg (backend_info note_id : List Char) : List Char :=
  backend_info ++ (lit "\n**Error:** Note '" ++ (note_id ++
    lit "' not found. Use `list_patient_notes(subject_id)` or `search_notes(query)` to find valid note IDs."))

/-- The `for table in ["discharge", "radiology"]` loop of
`GetNoteTool.invoke` (lines 185-209): a table's payload counts as the note
only when the query succeeded, the payload is truthy and its lowercase form
contains `"note_id"`; a raised exception just moves on to the next table;
when no table matches, the not-found message results. -/
def getNoteLoop (backend : Backend) (backend_info note_id : List Char)
    (max_length : Option Int) : List (List Char) → List Char
  | [] => noteNotFoundMsg backend_info note_id
  | table :: rest =>
    match backend table with
    | .ok r =>
      if r.success && !r.data.isEmpty && pyIn (lit "note_id") (lowerChars r.data) then
        getNoteFound backend_info r.data max_length
      else
        getNoteLoop backend backend_info note_id max_length rest
    | .exn _ => getNoteLoop backend backend_info note_id max_length rest

/-- `GetNoteTool.invoke` (lines 176-215). -/
def getNoteInvoke (backend : Backend) (backend_info note_id : List Char)
    (max_length : Option Int) : List Char :=
  getNoteLoop backend backend_info note_id max_length [lit "discharge", lit "radiology"]

/-! ### ListPatientNotesTool.invoke -/

/-- A per-table block `"\n**{table.upper()} NOTES:**\n{result.data}"` of
line 279. -/
def listEntry (table data : List Char) : List Char :=
  lit "\n**" ++ (upperChars table ++ (lit " NOTES:**\n" ++ data))

/-- The `for table in tables_to_query` loop of `ListPatientNotesTool.invoke`
(lines 262-281): same success / error-annotation discipline as the search
loop, with the `NOTES` block label. -/
def listResults (backend : Backend) : List (List Char) → List (List Char)
  | [] => []
  | table :: rest =>
    match backend table with
    | .ok r =>
      if r.success && !r.data.isEmpty then
        listEntry table r.data :: listResults backend rest
      else
        listResults backend rest
    | .exn e => tableErrorEntry table e :: listResults backend rest

/-- The no-notes message of lines 284-287. -/
def noNotesMsg (backend_info : List Char) (subject_id : Int) : List Char :=
  backend_info ++ (lit "\n**No notes found** for subject_id " ++ (intChars subject_id ++
    lit ".\n\n**Tip:** Verify the subject_id exists in the related MIMIC-IV dataset."))

/-- The aggregated listing output of lines 289-294. -/
def listOutput (backend_info : List Char) (subject_id : Int)
    (results : List (List Char)) : List Char :=
  backend_info ++ (lit "\n**Notes for subject_id " ++ (intChars subject_id ++ (lit ":**\n" ++
    (results.flatten ++
    lit "\n\n**Tip:** Use `get_note(note_id)` to retrieve full text of a specific note."))))

/-- `ListPatientNotesTool.invoke` (lines 245-296).  The empty check of line
283 is `not results or all("no rows" in r.lower() for r in results)`.
Returns the output and the tables queried. -/
def listPatientNotesInvoke (backend : Backend) (backend_info : List Char)
    (subject_id : Int) (note_type : List Char) : List Char × List (List Char) :=
  let tables_to_query := getTablesForType note_type
  if tables_to_query.isEmpty then
    (invalidNoteTypeMsg backend_info note_type, [])
  else
    let results := listResults backend tables_to_query
    if results.isEmpty || results.all (fun r => pyIn (lit "no rows") (lowerChars r)) then
      (noNotesMsg backend_info subject_id, tables_to_query)
    else
      (listOutput backend_info subject_id results, tables_to_query)

/-! ### Helper lemmas on the string primitives -/

/-- The empty needle occurs in every haystack. -/
theorem pyIn_nil_needle (l : List Char) : pyIn [] l = true := by
  cases l with
  | nil => rfl
  | cons c t => simp [pyIn, startsWith]

/-- A prefix of `x` is a prefix of `x ++ y`. -/
theorem startsWith_append (needle : List Char) :
    ∀ x y : List Char, startsWith x needle = true → startsWith (x ++ y) needle = true := by
  induction needle with
  | nil => intro x y _; cases x ++ y <;> simp [startsWith]
  | cons b n ih =>
    intro x y h
    cases x with
    | nil => simp [startsWith] at h
    | cons a x' =>
      simp only [startsWith, Bool.and_eq_true, beq_iff_eq] at h
      simp only [List.cons_append, startsWith, Bool.and_eq_true, beq_iff_eq]
      exact ⟨h.1, ih x' y h.2⟩

/-- An occurrence in `b` is an occurrence in `a ++ b`. -/
theorem pyIn_append_right (needle a b : List Char) (h : pyIn needle b = true) :
    pyIn needle (a ++ b) = true := by
  induction a with
  | nil => simpa using h
  | cons c a' ih => simp [pyIn, ih]

/-- An occurrence in `a` is an occurrence in `a ++ b`. -/
theorem pyIn_append_left (needle a b : List Char) (h : pyIn needle a = true) :
    pyIn needle (a ++ b) = true := by
  induction a with
  | nil =>
    cases needle with
    | nil => simpa using pyIn_nil_needle b
    | cons x n => simp [pyIn, startsWith] at h
  | cons c a' ih =>
    rw [pyIn] at h
    rcases Bool.or_eq_true_iff.mp h with h1 | h2
    · have h3 := startsWith_append needle (c :: a') b h1
      rw [List.cons_append] at h3 ⊢
      simp [pyIn, h3]
    · rw [List.cons_append]
      simp [pyIn, ih h2]

/-- Characterization of `sqlPositionAux` with a positive running counter:
either no suffix of the haystack starts with the needle and the result is 0,
or the result is the counter plus the least offset whose suffix does. -/
theorem sqlPositionAux_spec (needle : List Char) :
    ∀ (hay : List Char) (k : Nat), 0 < k →
      (sqlPositionAux needle hay k = 0 ∧
        ∀ i, startsWith (hay.drop i) needle = false) ∨
      (∃ i, sqlPositionAux needle hay k = k + i ∧
        startsWith (hay.drop i) needle = true ∧
        ∀ j, j < i → startsWith (hay.drop j) needle = false) := by
  intro hay
  induction hay with
  | nil =>
    intro k hk
    by_cases h : startsWith [] needle = true
    · right
      exact ⟨0, by simp [sqlPositionAux, h], by simpa using h,
        fun j hj => absurd hj (Nat.not_lt_zero j)⟩
    · left
      refine ⟨by simp [sqlPositionAux, h], fun i => ?_⟩
      rw [List.drop_nil]
      simpa using h
  | cons c hay ih =>
    intro k hk
    by_cases h : startsWith (c :: hay) needle = true
    · right
      exact ⟨0, by simp [sqlPositionAux, h], by simpa using h,
        fun j hj => absurd hj (Nat.not_lt_zero j)⟩
    · rcases ih (k + 1) (by omega) with ⟨h0, hall⟩ | ⟨i, heq, hs, hmin⟩
      · left
        refine ⟨by simp [sqlPositionAux, h, h0], fun i => ?_⟩
        cases i with
        | zero => simpa using h
        | succ j => simpa using hall j
      · right
        refine ⟨i + 1, ?_, by simpa using hs, fun j hj => ?_⟩
        · rw [sqlPositionAux, if_neg h, heq]
          omega
        · cases j with
          | zero => simpa using h
          | succ j' => simpa using hmin j' (by omega)

/-- When SQL POSITION returns `p + 1`, the needle occurs at 0-based offset
`p` and at no smaller offset. -/
theorem sqlPosition_found (needle hay : List Char) (p : Nat)
    (h : sqlPosition needle hay = p + 1) :
    startsWith (hay.drop p) needle = true ∧
    ∀ j, j < p → startsWith (hay.drop j) needle = false := by
  rcases sqlPositionAux_spec needle hay 1 (by omega) with ⟨h0, _⟩ | ⟨i, heq, hs, hmin⟩
  · rw [sqlPosition] at h
    omega
  · rw [sqlPosition] at h
    have hip : i = p := by omega
    subst hip
    exact ⟨hs, hmin⟩

/-- When SQL POSITION returns 0, the needle occurs at no offset. -/
theorem sqlPosition_notFound (needle hay : List Char)
    (h : sqlPosition needle hay = 0) :
    ∀ i, startsWith (hay.drop i) needle = false := by
  rcases sqlPositionAux_spec needle hay 1 (by omega) with ⟨_, hall⟩ | ⟨i, heq, _, _⟩
  · exact hall
  · rw [sqlPosition] at h
    omega

/-- For a tool with a single required modality and no allow-list (the shape
of all three notes tools), `is_compatible` is exactly the membership of that
modality in the dataset's modalities. -/
theorem is_compatible_single_modality (m : Modality) (ds : DatasetDefinition) :
    is_compatible ⟨[m], none⟩ ds = decide (m ∈ ds.modalities) := by
  by_cases h : m ∈ ds.modalities <;>
    simp [is_compatible, truthyOpt, isSubsetOf, h]

/-! ### The claims -/

/-- C1: for each of `search_notes`, `get_note` and `list_patient_notes` and
every dataset descriptor, `is_compatible` is false whenever the tool's
allow-list is set and the dataset's name is not in it (vacuous here: all
three tools carry `supported_datasets = None`), false whenever the tool's
required modalities are not a subset of the dataset's modalities, true
otherwise; in particular, since all three require the "notes" modality, a
dataset whose modality set excludes "notes" is incompatible with each of
them regardless of any call parameter (`is_compatible` takes none). -/
theorem C1_capability_gate (tool : ToolCaps)
    (htool : tool ∈ [searchNotesTool, getNoteTool, listPatientNotesTool])
    (ds : DatasetDefinition) :
    (∀ l, tool.supported_datasets = some l → ds.name ∉ l →
      is_compatible tool ds = false) ∧
    (¬ (∀ m ∈ tool.required_modalities, m ∈ ds.modalities) →
      is_compatible tool ds = false) ∧
    ((∀ m ∈ tool.required_modalities, m ∈ ds.modalities) →
      is_compatible tool ds = true) ∧
    (lit "notes" ∉ ds.modalities → is_compatible tool ds = false) := by
  have hshape : tool = (⟨[lit "notes"], none⟩ : ToolCaps) := by
    simp only [List.mem_cons, List.not_mem_nil, or_false] at htool
    rcases htool with h | h | h <;> subst h <;> rfl
  subst hshape
  refine ⟨fun l hl _ => by simp at hl, fun hsub => ?_, fun hsub => ?_, fun hnotes => ?_⟩
  · rw [is_compatible_single_modality]
    simp only [List.mem_singleton, forall_eq] at hsub
    simpa using hsub
  · rw [is_compatible_single_modality]
    simp only [List.mem_singleton, forall_eq] at hsub
    simpa using hsub
  · rw [is_compatible_single_modality]
    simpa using hnotes

/-- Witness for C1: a dataset exposing only "tabular" is incompatible with
`search_notes`, one exposing "notes" is compatible with it. -/
theorem C1_capability_gate_witness :
    is_compatible searchNotesTool ⟨lit "mimic-iv-demo", [lit "tabular"]⟩ = false ∧
    is_compatible searchNotesTool ⟨lit "mimic-iv-demo", [lit "notes", lit "tabular"]⟩ = true := by
  constructor
  · exact (C1_capability_gate searchNotesTool (by simp)
      ⟨lit "mimic-iv-demo", [lit "tabular"]⟩).2.2.2 (by decide)
  · exact (C1_capability_gate searchNotesTool (by simp)
      ⟨lit "mimic-iv-demo", [lit "notes", lit "tabular"]⟩).2.2.1 (by decide)

/-- C2 counterexample: the claim says every `note_type` value other than
"discharge", "radiology" and "all" produces the invalid-note_type message
and causes no table query; but `_get_tables_for_type` lowercases the
selector first, so the distinct value "DISCHARGE" resolves to the discharge
table, is queried, and does not produce the invalid message. -/
theorem C2_note_type_counterexample :
    lit "DISCHARGE" ≠ lit "discharge" ∧ lit "DISCHARGE" ≠ lit "radiology" ∧
    lit "DISCHARGE" ≠ lit "all" ∧
    getTablesForType (lit "DISCHARGE") = [lit "discharge"] ∧
    (searchNotesInvoke (fun _ => .ok ⟨false, []⟩) [] (lit "q") (lit "DISCHARGE") 300).2 =
      [lit "discharge"] ∧
    (searchNotesInvoke (fun _ => .ok ⟨false, []⟩) [] (lit "q") (lit "DISCHARGE") 300).1 ≠
      invalidNoteTypeMsg [] (lit "DISCHARGE") := by
  decide

/-- C2 (amended): with the selector compared after lowercasing — the one
change the counterexample forces — the resolution is exact: a selector
lowercasing to "discharge" yields {discharge}, to "radiology" yields
{radiology}, to "all" yields the ordered pair (discharge, radiology); any
other value makes both `search_notes` and `list_patient_notes` return the
invalid-note_type message with no table queried; and each invoke queries
exactly the resolved tables. -/
theorem C2_note_type_resolution (nt : List Char) (backend : Backend)
    (bi q : List Char) (S : Nat) (sid : Int) :
    (lowerChars nt = lit "discharge" → getTablesForType nt = [lit "discharge"]) ∧
    (lowerChars nt = lit "radiology" → getTablesForType nt = [lit "radiology"]) ∧
    (lowerChars nt = lit "all" →
      getTablesForType nt = [lit "discharge", lit "radiology"]) ∧
    (lowerChars nt ≠ lit "discharge" → lowerChars nt ≠ lit "radiology" →
      lowerChars nt ≠ lit "all" →
      getTablesForType nt = [] ∧
      searchNotesInvoke backend bi q nt S = (invalidNoteTypeMsg bi nt, []) ∧
      listPatientNotesInvoke backend bi sid nt = (invalidNoteTypeMsg bi nt, [])) ∧
    (searchNotesInvoke backend bi q nt S).2 = getTablesForType nt ∧
    (listPatientNotesInvoke backend bi sid nt).2 = getTablesForType nt := by
  refine ⟨fun h => by simp only [getTablesForType, h]; decide,
    fun h => by simp only [getTablesForType, h]; decide,
    fun h => by simp only [getTablesForType, h]; decide,
    fun h1 h2 h3 => ?_, ?_, ?_⟩
  · have htab : getTablesForType nt = [] := by
      simp only [getTablesForType]
      rw [if_neg h1, if_neg h2, if_neg h3]
    exact ⟨htab, by simp [searchNotesInvoke, htab],
      by simp [listPatientNotesInvoke, htab]⟩
  · simp only [searchNotesInvoke]
    split
    · rename_i h
      exact (List.isEmpty_iff.mp h).symm
    · split <;> rfl
  · simp only [listPatientNotesInvoke]
    split
    · rename_i h
      exact (List.isEmpty_iff.mp h).symm
    · split <;> rfl

/-- Witness for C2's amended theorem: the selector "progress" lowercases to
none of the three, so search returns the invalid message and queries no
table. -/
theorem C2_note_type_resolution_witness :
    getTablesForType (lit "progress") = [] ∧
    searchNotesInvoke (fun _ => .ok ⟨false, []⟩) [] (lit "q") (lit "progress") 300 =
      (invalidNoteTypeMsg [] (lit "progress"), []) := by
  have h := (C2_note_type_resolution (lit "progress") (fun _ => .ok ⟨false, []⟩)
    [] (lit "q") 300 0).2.2.2.1 (by decide) (by decide) (by decide)
  exact ⟨h.1, h.2.1⟩

/-- C3: snippet extraction as performed by the CASE expression of the
search SQL.  When the first case-insensitive occurrence of the query in the
note text is at 0-based offset `p` (POSITION returns `p + 1`: the occurrence
is at `p` and at no earlier offset), the snippet is the substring starting
at `max(0, p - snippet_length/2)` (Nat subtraction is that clamp) of length
`snippet_length`, clamped at the end of the text by `take`; when there is no
occurrence, it is the first `snippet_length` characters; in both cases its
length is at most `snippet_length`; and the all-uppercase query "TARGET"
matches text containing "target". -/
theorem C3_snippet (q t : List Char) (L : Nat) :
    (∀ p, sqlPosition (lowerChars q) (lowerChars t) = p + 1 →
      startsWith ((lowerChars t).drop p) (lowerChars q) = true ∧
      (∀ j, j < p → startsWith ((lowerChars t).drop j) (lowerChars q) = false) ∧
      snippetOf q t L = (t.drop (p - L / 2)).take L) ∧
    (sqlPosition (lowerChars q) (lowerChars t) = 0 →
      (∀ i, startsWith ((lowerChars t).drop i) (lowerChars q) = false) ∧
      snippetOf q t L = t.take L) ∧
    (snippetOf q t L).length ≤ L ∧
    0 < sqlPosition (lowerChars (lit "TARGET")) (lowerChars (lit "xx target yy")) := by
  refine ⟨fun p hp => ?_, fun h0 => ?_, ?_, by decide⟩
  · obtain ⟨hs, hmin⟩ := sqlPosition_found _ _ _ hp
    refine ⟨hs, hmin, ?_⟩
    simp only [snippetOf, hp]
    rw [if_pos (by omega)]
    simp only [sqlSubstring]
    congr 2
    omega
  · refine ⟨sqlPosition_notFound _ _ h0, ?_⟩
    simp only [snippetOf, h0]
    rw [if_neg (by omega)]
    rfl
  · simp only [snippetOf]
    split
    · rw [sqlSubstring, List.length_take]
      exact Nat.min_le_left _ _
    · rw [sqlLeft, List.length_take]
      exact Nat.min_le_left _ _

/-- Witness for C3: query "TARGET" in "xx target yy" with snippet length
10; the match is at 0-based offset 3, the snippet starts at
`max(0, 3 - 5) = 0` and is the first ten characters of the text. -/
theorem C3_snippet_witness :
    snippetOf (lit "TARGET") (lit "xx target yy") 10 = lit "xx target " ∧
    (snippetOf (lit "TARGET") (lit "xx target yy") 10).length ≤ 10 := by
  have h := C3_snippet (lit "TARGET") (lit "xx target yy") 10
  refine ⟨?_, h.2.2.1⟩
  have h3 := (h.1 3 (by decide)).2.2
  rw [h3]
  decide

/-- A table whose query raises contributes its inline error annotation to
the search loop's collected results. -/
theorem searchResults_exn_mem (backend : Backend) (t m : List Char)
    (hm : backend t = .exn m) :
    ∀ tables, t ∈ tables → tableErrorEntry t m ∈ searchResults backend tables := by
  intro tables
  induction tables with
  | nil => intro h; cases h
  | cons t' rest ih =>
    intro ht
    rw [searchResults]
    rcases List.mem_cons.mp ht with h | h
    · subst h
      simp [hm]
    · split
      · split
        · exact List.mem_cons_of_mem _ (ih h)
        · exact ih h
      · exact List.mem_cons_of_mem _ (ih h)

/-- A table whose query returns success with a truthy payload contributes
its result block to the search loop's collected results. -/
theorem searchResults_ok_mem (backend : Backend) (t : List Char) (r : QueryResult)
    (hr : backend t = .ok r) (hs : r.success = true) (hd : r.data ≠ []) :
    ∀ tables, t ∈ tables → searchEntry t r.data ∈ searchResults backend tables := by
  intro tables
  induction tables with
  | nil => intro h; cases h
  | cons t' rest ih =>
    intro ht
    rw [searchResults]
    rcases List.mem_cons.mp ht with h | h
    · subst h
      simp [hr, hs, List.isEmpty_iff, hd]
    · split
      · split
        · exact List.mem_cons_of_mem _ (ih h)
        · exact ih h
      · exact List.mem_cons_of_mem _ (ih h)

/-- C4: in search, a failing table is recorded inline next to the other
tables' results and never hides them: over any table list, a raising
table's error annotation is in the collected results and a succeeding
table's block is in the collected results; in particular with
`note_type="all"`, a discharge success plus a radiology exception yields
the aggregated output holding the discharge block followed by the radiology
error annotation — not a total failure. -/
theorem C4_partial_failure (backend : Backend) (bi q d e : List Char) (S : Nat) :
    (∀ tables t m, t ∈ tables → backend t = .exn m →
      tableErrorEntry t m ∈ searchResults backend tables) ∧
    (∀ tables t r, t ∈ tables → backend t = .ok r → r.success = true → r.data ≠ [] →
      searchEntry t r.data ∈ searchResults backend tables) ∧
    (backend (lit "discharge") = .ok ⟨true, d⟩ → d ≠ [] →
      backend (lit "radiology") = .exn e →
      (searchNotesInvoke backend bi q (lit "all") S).1 =
        searchOutput bi q S
          [searchEntry (lit "discharge") d, tableErrorEntry (lit "radiology") e]) := by
  refine ⟨fun tables t m ht hm => searchResults_exn_mem backend t m hm tables ht,
    fun tables t r ht hr hs hd => searchResults_ok_mem backend t r hr hs hd tables ht,
    fun hd hne hr => ?_⟩
  have htab : getTablesForType (lit "all") = [lit "discharge", lit "radiology"] := by decide
  have hde : d.isEmpty = false := by simpa [List.isEmpty_iff] using hne
  simp [searchNotesInvoke, htab, searchResults, hd, hr, hde]

/-- A backend for witnesses: the discharge query succeeds with payload
"ROW", every other table's query raises "boom". -/
def witnessBackendC4 : Backend := fun t =>
  if t = lit "discharge" then .ok ⟨true, lit "ROW"⟩ else .exn (lit "boom")

/-- Witness for C4: with the discharge-succeeds / radiology-raises backend,
searching "all" returns the discharge block plus the radiology error
annotation. -/
theorem C4_partial_failure_witness :
    (searchNotesInvoke witnessBackendC4 [] (lit "sepsis") (lit "all") 300).1 =
      searchOutput [] (lit "sepsis") 300
        [searchEntry (lit "discharge") (lit "ROW"),
          tableErrorEntry (lit "radiology") (lit "boom")] := by
  exact (C4_partial_failure witnessBackendC4 [] (lit "sepsis") (lit "ROW")
    (lit "boom") 300).2.2 (by decide) (by decide) (by decide)

/-- A backend whose discharge query finds a 9-character payload. -/
def witnessBackendC5 : Backend := fun t =>
  if t = lit "discharge" then .ok ⟨true, lit "note_id 1"⟩ else .ok ⟨true, []⟩

/-- C5 counterexample: the claim demands truncation whenever `max_length`
is supplied and the note's text is longer; but `GetNoteTool.invoke` tests
the Python truthiness of `max_length` (line 202), so the supplied value 0
never truncates: a 9-character found note with `max_length = 0` comes back
whole, with no truncation marker, where the claim requires exactly 0
characters plus a marker. -/
theorem C5_truncation_counterexample :
    ((lit "note_id 1").length : Int) > 0 ∧
    getNoteInvoke witnessBackendC5 [] (lit "1") (some 0) = lit "\n" ++ lit "note_id 1" ∧
    pyIn (lit "truncated") (getNoteInvoke witnessBackendC5 [] (lit "1") (some 0)) = false := by
  decide

/-- C5 (amended): for a found note, when `max_length` is supplied and
positive — positivity is what the counterexample forces, 0 being falsy —
and the payload is longer than it, the returned content is exactly the
first `max_length` characters of the payload framed by the truncation
marker; when `max_length` is absent, or at least the payload's length, the
payload is returned whole and untruncated. -/
theorem C5_truncation (backend : Backend) (bi nid d : List Char) (m : Int)
    (hB : backend (lit "discharge") = .ok ⟨true, d⟩)
    (hne : d ≠ [])
    (hhit : pyIn (lit "note_id") (lowerChars d) = true) :
    (1 ≤ m → (d.length : Int) > m →
      getNoteInvoke backend bi nid (some m) =
        bi ++ (lit "\n**Note (truncated to " ++ (intChars m ++
          (lit " chars):**\n" ++ (d.take m.toNat ++ lit "\n\n[...truncated...]")))) ∧
      (d.take m.toNat).length = m.toNat) ∧
    ((d.length : Int) ≤ m →
      getNoteInvoke backend bi nid (some m) = bi ++ (lit "\n" ++ d)) ∧
    getNoteInvoke backend bi nid none = bi ++ (lit "\n" ++ d) := by
  have hde : d.isEmpty = false := by simpa [List.isEmpty_iff] using hne
  have hloop : ∀ ml, getNoteInvoke backend bi nid ml = getNoteFound bi d ml := by
    intro ml
    simp [getNoteInvoke, getNoteLoop, hB, hde, hhit]
  have hpos : 0 < d.length := List.length_pos.mpr hne
  refine ⟨fun h1 h2 => ?_, fun h => ?_, ?_⟩
  · have hcond : (truthyInt (some m) &&
        decide ((d.length : Int) > (some m).getD 0)) = true := by
      simp only [truthyInt, Option.getD_some, Bool.and_eq_true, bne_iff_ne,
        decide_eq_true_eq]
      omega
    constructor
    · rw [hloop, getNoteFound, if_pos hcond]
      simp only [Option.getD_some]
      rw [pySliceTo, if_pos (by omega)]
    · rw [List.length_take]
      omega
  · rw [hloop, getNoteFound, if_neg ?_]
    intro hc
    simp only [truthyInt, Option.getD_some, Bool.and_eq_true, bne_iff_ne,
      decide_eq_true_eq] at hc
    omega
  · rw [hloop, getNoteFound, if_neg ?_]
    intro hc
    simp [truthyInt] at hc

/-- A backend whose discharge query finds an 18-character payload. -/
def witnessBackendC5w : Backend := fun t =>
  if t = lit "discharge" then .ok ⟨true, lit "note_id abcdefghij"⟩ else .ok ⟨true, []⟩

/-- Witness for C5's amended theorem: an 18-character payload with
`max_length = 5` comes back as exactly its first five characters plus the
truncation framing. -/
theorem C5_truncation_witness :
    getNoteInvoke witnessBackendC5w [] (lit "x") (some 5) =
      [] ++ (lit "\n**Note (truncated to " ++ (intChars 5 ++
        (lit " chars):**\n" ++ ((lit "note_id abcdefghij").take (5 : Int).toNat ++
          lit "\n\n[...truncated...]")))) ∧
    ((lit "note_id abcdefghij").take (5 : Int).toNat).length = (5 : Int).toNat := by
  exact (C5_truncation witnessBackendC5w [] (lit "x") (lit "note_id abcdefghij") 5
    (by decide) (by decide) (by decide)).1 (by decide) (by decide)

/-- Lowercasing distributes over concatenation. -/
theorem lowerChars_append (a b : List Char) :
    lowerChars (a ++ b) = lowerChars a ++ lowerChars b :=
  List.map_append _ _ _

/-- C6: `get_note` iterates exactly the fixed list discharge-then-radiology,
returns on the first table whose payload passes the found test (so the
remaining table is never consulted), a raising table does not abort the
loop — the next table is still tried — and when no table yields a row the
result is the not-found message, whose text references
`list_patient_notes` and `search_notes` as the way to find valid note ids. -/
theorem C6_get_note_order (backend : Backend) (bi nid : List Char) (ml : Option Int) :
    getNoteInvoke backend bi nid ml =
      getNoteLoop backend bi nid ml [lit "discharge", lit "radiology"] ∧
    (∀ r, backend (lit "discharge") = .ok r → r.success = true → r.data ≠ [] →
      pyIn (lit "note_id") (lowerChars r.data) = true →
      getNoteInvoke backend bi nid ml = getNoteFound bi r.data ml) ∧
    (∀ e, backend (lit "discharge") = .exn e →
      getNoteInvoke backend bi nid ml =
        getNoteLoop backend bi nid ml [lit "radiology"]) ∧
    ((∀ t, t ∈ [lit "discharge", lit "radiology"] →
        (∃ e, backend t = .exn e) ∨
        (∃ r, backend t = .ok r ∧ (r.success = false ∨ r.data = [] ∨
          pyIn (lit "note_id") (lowerChars r.data) = false))) →
      getNoteInvoke backend bi nid ml = noteNotFoundMsg bi nid ∧
      pyIn (lit "list_patient_notes") (noteNotFoundMsg bi nid) = true ∧
      pyIn (lit "search_notes") (noteNotFoundMsg bi nid) = true) := by
  have hskip : ∀ t rest, ((∃ e, backend t = .exn e) ∨
      (∃ r, backend t = .ok r ∧ (r.success = false ∨ r.data = [] ∨
        pyIn (lit "note_id") (lowerChars r.data) = false))) →
      getNoteLoop backend bi nid ml (t :: rest) = getNoteLoop backend bi nid ml rest := by
    intro t rest h
    rcases h with ⟨e, he⟩ | ⟨r, hr, hcase⟩
    · simp [getNoteLoop, he]
    · rcases hcase with h1 | h2 | h3
      · simp [getNoteLoop, hr, h1]
      · simp [getNoteLoop, hr, h2]
      · simp [getNoteLoop, hr, h3]
  refine ⟨rfl, fun r hb hs hd hhit => ?_, fun e hb => ?_, fun hall => ?_⟩
  · have hde : r.data.isEmpty = false := by simpa [List.isEmpty_iff] using hd
    simp [getNoteInvoke, getNoteLoop, hb, hs, hde, hhit]
  · simp [getNoteInvoke, getNoteLoop, hb]
  · refine ⟨?_, ?_, ?_⟩
    · rw [getNoteInvoke, hskip (lit "discharge") _ (hall _ (by simp)),
        hskip (lit "radiology") _ (hall _ (by simp))]
      rfl
    · rw [noteNotFoundMsg]
      exact pyIn_append_right _ _ _ (pyIn_append_right _ _ _
        (pyIn_append_right _ _ _ (by decide)))
    · rw [noteNotFoundMsg]
      exact pyIn_append_right _ _ _ (pyIn_append_right _ _ _
        (pyIn_append_right _ _ _ (by decide)))

/-- Witness for C6: a backend that raises on both tables makes `get_note`
return the not-found message, which names both discovery tools. -/
theorem C6_get_note_order_witness :
    getNoteInvoke (fun _ => .exn (lit "db down")) [] (lit "nonexistent-id") none =
      noteNotFoundMsg [] (lit "nonexistent-id") ∧
    pyIn (lit "list_patient_notes")
      (noteNotFoundMsg [] (lit "nonexistent-id")) = true ∧
    pyIn (lit "search_notes") (noteNotFoundMsg [] (lit "nonexistent-id")) = true := by
  exact (C6_get_note_order (fun _ => .exn (lit "db down")) [] (lit "nonexistent-id")
    none).2.2.2 (fun t _ => Or.inl ⟨lit "db down", rfl⟩)

/-- A successful query whose payload is the backend's rendering of a
zero-row result: an empty payload, or one that reads "no rows". -/
def zeroRows (resp : BackendResponse) : Prop :=
  ∃ r, resp = .ok r ∧ r.success = true ∧
    (r.data = [] ∨ pyIn (lit "no rows") (lowerChars r.data) = true)

/-- When every selected table yields zero rows, every block the listing
loop keeps reads "no rows" (case-insensitively). -/
theorem listResults_zeroRows (backend : Backend) :
    ∀ tables, (∀ t, t ∈ tables → zeroRows (backend t)) →
      ((listResults backend tables).all
        (fun r => pyIn (lit "no rows") (lowerChars r))) = true := by
  intro tables
  induction tables with
  | nil => intro _; rfl
  | cons t rest ih =>
    intro h
    obtain ⟨r, hr, hs, hcase⟩ := h t (by simp)
    have hrest := ih (fun t' ht' => h t' (by simp [ht']))
    rcases hcase with hdat | hnr
    · simp [listResults, hr, hdat, hrest]
    · have hlow : pyIn (lit "no rows") (lowerChars (listEntry t r.data)) = true := by
        rw [listEntry, lowerChars_append, lowerChars_append, lowerChars_append]
        exact pyIn_append_right _ _ _ (pyIn_append_right _ _ _
          (pyIn_append_right _ _ _ hnr))
      simp only [listResults, hr]
      split
      · simp [hlow, hrest]
      · exact hrest

/-- C7: when every table selected by a valid note_type yields zero rows,
`list_patient_notes` returns the no-notes-found message suggesting the
caller verify the subject identifier — never an empty string. -/
theorem C7_no_notes_found (backend : Backend) (bi : List Char) (sid : Int)
    (nt : List Char) (hvalid : getTablesForType nt ≠ [])
    (hz : ∀ t, t ∈ getTablesForType nt → zeroRows (backend t)) :
    (listPatientNotesInvoke backend bi sid nt).1 = noNotesMsg bi sid ∧
    pyIn (lit "**No notes found**")
      ((listPatientNotesInvoke backend bi sid nt).1) = true ∧
    (listPatientNotesInvoke backend bi sid nt).1 ≠ [] := by
  have hall := listResults_zeroRows backend (getTablesForType nt) hz
  have hout : (listPatientNotesInvoke backend bi sid nt).1 = noNotesMsg bi sid := by
    simp only [listPatientNotesInvoke]
    rw [if_neg (by simpa [List.isEmpty_iff] using hvalid), if_pos (by simp [hall])]
  have hmem : pyIn (lit "**No notes found**")
      ((listPatientNotesInvoke backend bi sid nt).1) = true := by
    rw [hout, noNotesMsg]
    exact pyIn_append_right _ _ _ (pyIn_append_left _ _ _ (by decide))
  refine ⟨hout, hmem, fun hcontra => ?_⟩
  rw [hcontra] at hmem
  exact absurd hmem (by decide)

/-- Witness for C7: a backend returning successful empty payloads for both
tables of note_type "all" and the unmatched subject 999999999. -/
theorem C7_no_notes_found_witness :
    (listPatientNotesInvoke (fun _ => .ok ⟨true, []⟩) [] 999999999 (lit "all")).1 =
      noNotesMsg [] 999999999 ∧
    (listPatientNotesInvoke (fun _ => .ok ⟨true, []⟩) [] 999999999 (lit "all")).1 ≠ [] := by
  have h := C7_no_notes_found (fun _ => .ok ⟨true, []⟩) [] 999999999 (lit "all")
    (by decide) (fun t _ => ⟨⟨true, []⟩, rfl, rfl, Or.inl rfl⟩)
  exact ⟨h.1, h.2.2⟩

/-- C8: note-type selector matching is case-insensitive: any value whose
lowercase form is "discharge", "radiology" or "all" resolves to the same
table set as that lowercase selector and is not rejected as invalid (the
resolved set is non-empty, and the invalid-input branch fires only on the
empty set); in particular "DISCHARGE", "Radiology" and "ALL" resolve like
their lowercase forms. -/
theorem C8_case_insensitive_selector (nt : List Char) :
    (lowerChars nt = lit "discharge" →
      getTablesForType nt = getTablesForType (lit "discharge") ∧
      getTablesForType nt ≠ []) ∧
    (lowerChars nt = lit "radiology" →
      getTablesForType nt = getTablesForType (lit "radiology") ∧
      getTablesForType nt ≠ []) ∧
    (lowerChars nt = lit "all" →
      getTablesForType nt = getTablesForType (lit "all") ∧
      getTablesForType nt ≠ []) ∧
    getTablesForType (lit "DISCHARGE") = getTablesForType (lit "discharge") ∧
    getTablesForType (lit "Radiology") = getTablesForType (lit "radiology") ∧
    getTablesForType (lit "ALL") = getTablesForType (lit "all") := by
  refine ⟨fun h => ?_, fun h => ?_, fun h => ?_, by decide, by decide, by decide⟩ <;>
    exact ⟨by simp only [getTablesForType, h]; decide,
      by simp only [getTablesForType, h]; decide⟩

/-- Witness for C8: "DISCHARGE" resolves like "discharge" and is not
rejected. -/
theorem C8_case_insensitive_selector_witness :
    getTablesForType (lit "DISCHARGE") = getTablesForType (lit "discharge") ∧
    getTablesForType (lit "DISCHARGE") ≠ [] := by
  exact (C8_case_insensitive_selector (lit "DISCHARGE")).1 (by decide)

/-- A table whose query returns a result object that is failed or empty
contributes nothing to the search loop; if every table does so, the loop
collects nothing. -/
theorem searchResults_skipAll (backend : Backend) :
    ∀ tables,
      (∀ t, t ∈ tables → ∃ r, backend t = .ok r ∧
        (r.success = false ∨ r.data = [])) →
      searchResults backend tables = [] := by
  intro tables
  induction tables with
  | nil => intro _; rfl
  | cons t rest ih =>
    intro h
    obtain ⟨r, hr, hcase⟩ := h t (by simp)
    have hrest := ih (fun t' ht' => h t' (by simp [ht']))
    rcases hcase with h1 | h2
    · simp [searchResults, hr, h1, hrest]
    · simp [searchResults, hr, h2, hrest]

/-- C9: a per-table backend result with `success = false` and no exception
contributes neither a result block nor an error annotation to the search;
when every selected table returns such a result, the response is exactly
the no-matches message naming the query and the searched tables — the very
message of an empty search, with no trace that any query failed. -/
theorem C9_silent_per_table_failure (backend : Backend) (bi q : List Char) (S : Nat) :
    (∀ t rest r, backend t = .ok r → r.success = false →
      searchResults backend (t :: rest) = searchResults backend rest) ∧
    (∀ nt, getTablesForType nt ≠ [] →
      (∀ t, t ∈ getTablesForType nt → ∃ r, backend t = .ok r ∧ r.success = false) →
      (searchNotesInvoke backend bi q nt S).1 = noMatchesMsg bi q (getTablesForType nt) ∧
      (searchNotesInvoke backend bi q nt S).1 =
        (searchNotesInvoke (fun _ => .ok ⟨true, []⟩) bi q nt S).1) := by
  refine ⟨fun t rest r hr h1 => by simp [searchResults, hr, h1], fun nt hvalid hfail => ?_⟩
  have hres : searchResults backend (getTablesForType nt) = [] :=
    searchResults_skipAll backend _
      (fun t ht => (hfail t ht).elim (fun r hr => ⟨r, hr.1, Or.inl hr.2⟩))
  have hres' : searchResults (fun _ => .ok ⟨true, []⟩) (getTablesForType nt) = [] :=
    searchResults_skipAll _ _ (fun t _ => ⟨⟨true, []⟩, rfl, Or.inr rfl⟩)
  have hout : (searchNotesInvoke backend bi q nt S).1 = noMatchesMsg bi q (getTablesForType nt) := by
    simp only [searchNotesInvoke]
    rw [if_neg (by simpa [List.isEmpty_iff] using hvalid), if_pos (by simp [hres])]
  have hout' : (searchNotesInvoke (fun _ => .ok ⟨true, []⟩) bi q nt S).1 =
      noMatchesMsg bi q (getTablesForType nt) := by
    simp only [searchNotesInvoke]
    rw [if_neg (by simpa [List.isEmpty_iff] using hvalid), if_pos (by simp [hres'])]
  exact ⟨hout, hout.trans hout'.symm⟩

/-- Witness for C9: both tables return `success = false` results; search
over "all" yields the plain no-matches message. -/
theorem C9_silent_per_table_failure_witness :
    (searchNotesInvoke (fun _ => .ok ⟨false, lit "oops"⟩) [] (lit "fever")
      (lit "all") 300).1 =
      noMatchesMsg [] (lit "fever") [lit "discharge", lit "radiology"] := by
  have h := ((C9_silent_per_table_failure (fun _ => .ok ⟨false, lit "oops"⟩) []
    (lit "fever") 300).2 (lit "all") (by decide)
    (fun t _ => ⟨⟨false, lit "oops"⟩, rfl, rfl⟩)).1
  rw [show getTablesForType (lit "all") = [lit "discharge", lit "radiology"] from
    by decide] at h
  exact h

/-- C10: `get_note` treats a table's payload as the note only when the
query succeeded, the payload is non-empty and its lowercase form contains
"note_id"; a failed or empty payload is skipped, a successful non-empty
payload lacking "note_id" is skipped too, and when both tables are skipped
the not-found message results. -/
theorem C10_found_condition (backend : Backend) (bi nid : List Char) (ml : Option Int) :
    (∀ t rest r, backend t = .ok r → (r.success = false ∨ r.data = []) →
      getNoteLoop backend bi nid ml (t :: rest) = getNoteLoop backend bi nid ml rest) ∧
    (∀ t rest r, backend t = .ok r → r.success = true → r.data ≠ [] →
      pyIn (lit "note_id") (lowerChars r.data) = false →
      getNoteLoop backend bi nid ml (t :: rest) = getNoteLoop backend bi nid ml rest) ∧
    (∀ t rest r, backend t = .ok r → r.success = true → r.data ≠ [] →
      pyIn (lit "note_id") (lowerChars r.data) = true →
      getNoteLoop backend bi nid ml (t :: rest) = getNoteFound bi r.data ml) ∧
    ((∀ t, t ∈ [lit "discharge", lit "radiology"] → ∃ r, backend t = .ok r ∧
        r.success = true ∧ r.data ≠ [] ∧
        pyIn (lit "note_id") (lowerChars r.data) = false) →
      getNoteInvoke backend bi nid ml = noteNotFoundMsg bi nid) := by
  refine ⟨fun t rest r hr hcase => ?_, fun t rest r hr hs hd hmiss => ?_,
    fun t rest r hr hs hd hhit => ?_, fun hall => ?_⟩
  · rcases hcase with h1 | h2
    · simp [getNoteLoop, hr, h1]
    · simp [getNoteLoop, hr, h2]
  · simp [getNoteLoop, hr, hmiss]
  · have hde : r.data.isEmpty = false := by simpa [List.isEmpty_iff] using hd
    simp [getNoteLoop, hr, hs, hde, hhit]
  · obtain ⟨r1, hr1, hs1, hd1, hm1⟩ := hall (lit "discharge") (by simp)
    obtain ⟨r2, hr2, hs2, hd2, hm2⟩ := hall (lit "radiology") (by simp)
    rw [getNoteInvoke]
    rw [show getNoteLoop backend bi nid ml [lit "discharge", lit "radiology"] =
        getNoteLoop backend bi nid ml [lit "radiology"] from
      by simp [getNoteLoop, hr1, hm1]]
    rw [show getNoteLoop backend bi nid ml [lit "radiology"] =
        getNoteLoop backend bi nid ml [] from by simp [getNoteLoop, hr2, hm2]]
    rfl

/-- Witness for C10: both tables return the successful non-empty payload
"0 rows", which lacks "note_id"; get_note falls through to not-found. -/
theorem C10_found_condition_witness :
    getNoteInvoke (fun _ => .ok ⟨true, lit "0 rows"⟩) [] (lit "zz") none =
      noteNotFoundMsg [] (lit "zz") := by
  exact (C10_found_condition (fun _ => .ok ⟨true, lit "0 rows"⟩) [] (lit "zz")
    none).2.2.2 (fun t _ => ⟨⟨true, lit "0 rows"⟩, rfl, rfl, by decide, by decide⟩)

end M4Notes
